import Mathlib

/-!
Shallow embedding of the FPGA Management Engine (FME) performance-counter
driver (`drivers/fpga/dfl-fme-perf.c`) and proofs about its event catalog,
event resolver, fabric-mode arbiter, counter-session accounting and the
cache counter read protocol.

Machine integers are modelled as `Nat` with explicit reduction `% 2^w`
where overflow matters.  Bit fields (`FIELD_GET` / `FIELD_PREP` /
`GENMASK` in the C source) are modelled arithmetically: the field of
width `w` starting at bit `lo` of `v` is `v / 2^lo % 2^w`, clearing the
field subtracts its contribution, and setting ORs (adds) into the cleared
position.  Hardware reads are passed in as explicit inputs (for the poll
loop, as a sequence of successive register reads).
-/

/-- Constant `PERF_TIMEOUT` from the C source: bound on the busy-poll
loop awaiting the counter register to echo the event code. -/
def PERF_TIMEOUT : Nat := 30

/-- Constant `PERF_MAX_PORT_NUM` from the C source: number of ports. -/
def PERF_MAX_PORT_NUM : Nat := 1

/-- Constant `FME_PORTID_ROOT` (0xff) from the C source: the aggregate /
"no specific port" sentinel port id. -/
def FME_PORTID_ROOT : Nat := 0xff

/-- Event type code `FME_EVTYPE_BASIC` from the C source. -/
def FME_EVTYPE_BASIC : Nat := 0

/-- Event type code `FME_EVTYPE_CACHE` from the C source. -/
def FME_EVTYPE_CACHE : Nat := 1

/-- Event type code `FME_EVTYPE_FABRIC` from the C source. -/
def FME_EVTYPE_FABRIC : Nat := 2

/-- Event type code `FME_EVTYPE_VTD` from the C source. -/
def FME_EVTYPE_VTD : Nat := 3

/-- Event type code `FME_EVTYPE_VTD_SIP` from the C source. -/
def FME_EVTYPE_VTD_SIP : Nat := 4

/-- Constant `FME_EVTYPE_MAX` from the C source (`FME_EVTYPE_VTD_SIP`). -/
def FME_EVTYPE_MAX : Nat := FME_EVTYPE_VTD_SIP

/-- Arithmetic rendering of the C macro `FIELD_GET(GENMASK_ULL(lo+w-1, lo), v)`:
extract the `w`-bit field of `v` that starts at bit `lo`. -/
def fieldGet (lo w v : Nat) : Nat := v / 2 ^ lo % 2 ^ w

/-- Classification of a requested port id: the sentinel `FME_PORTID_ROOT`
denotes aggregate (overall) monitoring, anything else names one port. -/
inductive FabMode where
  | aggregate : FabMode
  | port (id : Nat) : FabMode
deriving DecidableEq, Repr

/-- Classify a raw 8-bit port id field into a fabric monitoring mode. -/
def classify (port_id : Nat) : FabMode :=
  if port_id = FME_PORTID_ROOT then FabMode.aggregate else FabMode.port port_id

/-- Error results returned by the driver's event-open paths: `ENOENT`
for a foreign PMU type, `EINVAL` for rejected configurations, and
`EOPNOTSUPP` for a conflicting fabric monitoring mode (the spec's
`Busy` classification of the fabric mode conflict). -/
inductive FmeErr where
  | ENOENT : FmeErr
  | EINVAL : FmeErr
  | EOPNOTSUPP : FmeErr
deriving DecidableEq, Repr

/-- State of the fabric-mode arbiter (fields `fab_users`, `fab_port_id` of
`struct fme_perf_priv`) together with the value of the fabric control
register `FAB_CTRL` and an instrumentation counter of how many `writeq`
stores to `FAB_CTRL` have been performed (so "no reprogramming" is the
statement that the write count is unchanged). -/
structure FabState where
  fab_users : Nat
  fab_port_id : Nat
  fab_ctrl : Nat
  fab_ctrl_writes : Nat
deriving DecidableEq, Repr

/-- Read-modify-write of the fabric control register performed by
`fabric_event_init` in the C source: clear `FAB_PORT_FILTER` (bit 23) and
`FAB_PORT_ID` (bits 21:20), then program filter-disable for the aggregate
sentinel, or filter-enable plus the (2-bit masked, per `FIELD_PREP`) port
id otherwise. -/
def fab_ctrl_rmw (v port_id : Nat) : Nat :=
  let cleared := v - fieldGet 23 1 v * 2 ^ 23 - fieldGet 20 2 v * 2 ^ 20
  if port_id = FME_PORTID_ROOT then
    cleared
  else
    cleared + 2 ^ 23 + port_id % 2 ^ 2 * 2 ^ 20

/-- Embedding of `fabric_event_init` from the C source: under the fabric
lock, fail with `EOPNOTSUPP` when the counter bank is in use in a different
mode; otherwise increment `fab_users` (a `u32`), and when the working mode
changes record the new `fab_port_id` and reprogram the filter sub-fields
of `FAB_CTRL`.  The result is the returned error (if any) paired with the
updated state.  `event` and `data` are unused by the C function. -/
def fabric_event_init (s : FabState) (event port_id data : Nat) :
    Option FmeErr × FabState :=
  if 0 < s.fab_users ∧ s.fab_port_id ≠ port_id then
    (some FmeErr.EOPNOTSUPP, s)
  else
    let s1 : FabState := { s with fab_users := (s.fab_users + 1) % 2 ^ 32 }
    if s1.fab_port_id = port_id then
      (none, s1)
    else
      (none, { s1 with
                 fab_port_id := port_id,
                 fab_ctrl := fab_ctrl_rmw s1.fab_ctrl port_id,
                 fab_ctrl_writes := s1.fab_ctrl_writes + 1 })

/-- Embedding of `fabric_event_destroy` from the C source: under the
fabric lock, decrement the `u32` user counter `fab_users` (unsigned
decrement: at 0 it wraps to `2^32 - 1`); nothing else is touched and no
register is written.  `event`, `port_id` and `data` are unused by the C
function. -/
def fabric_event_destroy (s : FabState) (event port_id data : Nat) : FabState :=
  { s with fab_users := if s.fab_users = 0 then 2 ^ 32 - 1 else s.fab_users - 1 }

/-- Embedding of `fme_perf_setup_hardware` from the C source: read the
current working mode of the fabric counters out of the `FAB_CTRL` register
value `v`: the aggregate sentinel when `FAB_PORT_FILTER` (bit 23) reads as
disabled (0), else the `FAB_PORT_ID` field (bits 21:20). -/
def fme_perf_setup_hardware (v : Nat) : Nat :=
  if fieldGet 23 1 v = 0 then FME_PORTID_ROOT else fieldGet 20 2 v

/-- Arbiter state right after device attach (`fme_perf_init` /
`fme_perf_pmu_register`): the priv structure is zero-allocated, so
`fab_users` starts at 0, and `fab_port_id` is initialized by
`fme_perf_setup_hardware` from the `FAB_CTRL` register value `ctrl`. -/
def fme_perf_attach (ctrl : Nat) : FabState :=
  ⟨0, fme_perf_setup_hardware ctrl, ctrl, 0⟩

/-- Embedding of `struct fme_perf_event_attr` (the catalog entry):
numeric event id, event type code, per-port flag, and the opaque private
data (hardware channel for cache events, zero elsewhere). -/
structure FmePerfEventAttr where
  event_id : Nat
  event_type : Nat
  is_port_event : Bool
  data : Nat
deriving DecidableEq, Repr

/-- Catalog group `fme_perf_basic_events` from the C source. -/
def fme_perf_basic_events : List FmePerfEventAttr :=
  [⟨0x0, FME_EVTYPE_BASIC, false, 0⟩]

/-- Catalog group `fme_perf_cache_events` from the C source (event code
and hardware channel per `CACHE_EVNT_*` / `CACHE_CHANNEL_*`). -/
def fme_perf_cache_events : List FmePerfEventAttr :=
  [⟨0x0, FME_EVTYPE_CACHE, false, 0⟩,
   ⟨0x2, FME_EVTYPE_CACHE, false, 0⟩,
   ⟨0x1, FME_EVTYPE_CACHE, false, 1⟩,
   ⟨0x3, FME_EVTYPE_CACHE, false, 1⟩,
   ⟨0x5, FME_EVTYPE_CACHE, false, 0⟩,
   ⟨0x6, FME_EVTYPE_CACHE, false, 1⟩,
   ⟨0x7, FME_EVTYPE_CACHE, false, 1⟩,
   ⟨0x8, FME_EVTYPE_CACHE, false, 0⟩,
   ⟨0x9, FME_EVTYPE_CACHE, false, 0⟩,
   ⟨0xa, FME_EVTYPE_CACHE, false, 0⟩]

/-- Catalog group `fme_perf_fab_events` from the C source: eight global
fabric events followed by the same eight event codes as per-port events. -/
def fme_perf_fab_events : List FmePerfEventAttr :=
  [⟨0x0, FME_EVTYPE_FABRIC, false, 0⟩,
   ⟨0x1, FME_EVTYPE_FABRIC, false, 0⟩,
   ⟨0x2, FME_EVTYPE_FABRIC, false, 0⟩,
   ⟨0x3, FME_EVTYPE_FABRIC, false, 0⟩,
   ⟨0x4, FME_EVTYPE_FABRIC, false, 0⟩,
   ⟨0x5, FME_EVTYPE_FABRIC, false, 0⟩,
   ⟨0x6, FME_EVTYPE_FABRIC, false, 0⟩,
   ⟨0x7, FME_EVTYPE_FABRIC, false, 0⟩,
   ⟨0x0, FME_EVTYPE_FABRIC, true, 0⟩,
   ⟨0x1, FME_EVTYPE_FABRIC, true, 0⟩,
   ⟨0x2, FME_EVTYPE_FABRIC, true, 0⟩,
   ⟨0x3, FME_EVTYPE_FABRIC, true, 0⟩,
   ⟨0x4, FME_EVTYPE_FABRIC, true, 0⟩,
   ⟨0x5, FME_EVTYPE_FABRIC, true, 0⟩,
   ⟨0x6, FME_EVTYPE_FABRIC, true, 0⟩,
   ⟨0x7, FME_EVTYPE_FABRIC, true, 0⟩]

/-- Catalog group `fme_perf_vtd_events` from the C source (all per-port). -/
def fme_perf_vtd_events : List FmePerfEventAttr :=
  [⟨0x0, FME_EVTYPE_VTD, true, 0⟩,
   ⟨0x1, FME_EVTYPE_VTD, true, 0⟩,
   ⟨0x2, FME_EVTYPE_VTD, true, 0⟩,
   ⟨0x3, FME_EVTYPE_VTD, true, 0⟩,
   ⟨0x4, FME_EVTYPE_VTD, true, 0⟩,
   ⟨0x5, FME_EVTYPE_VTD, true, 0⟩,
   ⟨0x6, FME_EVTYPE_VTD, true, 0⟩]

/-- Catalog group `fme_perf_vtd_sip_events` from the C source (all global). -/
def fme_perf_vtd_sip_events : List FmePerfEventAttr :=
  [⟨0x0, FME_EVTYPE_VTD_SIP, false, 0⟩,
   ⟨0x1, FME_EVTYPE_VTD_SIP, false, 0⟩,
   ⟨0x2, FME_EVTYPE_VTD_SIP, false, 0⟩,
   ⟨0x3, FME_EVTYPE_VTD_SIP, false, 0⟩,
   ⟨0x4, FME_EVTYPE_VTD_SIP, false, 0⟩,
   ⟨0x5, FME_EVTYPE_VTD_SIP, false, 0⟩,
   ⟨0x6, FME_EVTYPE_VTD_SIP, false, 0⟩,
   ⟨0x7, FME_EVTYPE_VTD_SIP, false, 0⟩,
   ⟨0x8, FME_EVTYPE_VTD_SIP, false, 0⟩,
   ⟨0x9, FME_EVTYPE_VTD_SIP, false, 0⟩,
   ⟨0xa, FME_EVTYPE_VTD_SIP, false, 0⟩,
   ⟨0xb, FME_EVTYPE_VTD_SIP, false, 0⟩]

/-- Array `fme_perf_event_groups` from the C source, indexed by the
`FME_EVTYPE_*` codes. -/
def fme_perf_event_groups : List (List FmePerfEventAttr) :=
  [fme_perf_basic_events, fme_perf_cache_events, fme_perf_fab_events,
   fme_perf_vtd_events, fme_perf_vtd_sip_events]

/-- Embedding of `get_event_attr` from the C source: classify the port id
(anything but the aggregate sentinel is a port event), reject event types
beyond `FME_EVTYPE_MAX`, then linearly scan the type's catalog group for
an entry matching both the event id and the port-event classification. -/
def get_event_attr (event_id event_type port_id : Nat) :
    Option FmePerfEventAttr :=
  let is_port : Bool := port_id != FME_PORTID_ROOT
  if event_type > FME_EVTYPE_MAX then none
  else
    (fme_perf_event_groups.getD event_type []).find?
      (fun a => a.event_id == event_id && a.is_port_event == is_port)

/-- Session-identifying state stored by `fme_perf_event_init` into the
`hw_perf_event` on a successful open: `event_base` holds the event type,
`idx` the event id, `config_base` the port id and `config` the
descriptor's private data. -/
structure FmeSession where
  event_base : Nat
  idx : Nat
  config_base : Nat
  config : Nat
deriving DecidableEq, Repr

/-- Open request as seen by `fme_perf_event_init`: the perf attr type and
the PMU's own type, the sampling period (`is_sampling_event` holds when it
is nonzero), whether `PERF_ATTACH_TASK` is set in the attach state, the
target CPU, and the 64-bit configuration word. -/
structure PerfEventConf where
  attr_type : Nat
  pmu_type : Nat
  sample_period : Nat
  attach_task : Bool
  cpu : Int
  config : Nat
deriving DecidableEq, Repr

/-- Embedding of `fme_perf_event_init` from the C source: reject foreign
PMU types with `ENOENT`; reject sampling or task-attached requests and
requests without an explicit CPU with `EINVAL`; decode
`(event id, event type, port id)` from the configuration word per the
`FME_EVENT_MASK` / `FME_EVTYPE_MASK` / `FME_PORTID_MASK` layout; resolve
the catalog entry (failure is `EINVAL`); validate the port id against the
entry's scope; store the session state; and, for the fabric type (the only
group whose ops define `event_init`), run the fabric arbiter, propagating
its error.  Returns the result paired with the (possibly updated) arbiter
state. -/
def fme_perf_event_init (e : PerfEventConf) (s : FabState) :
    Except FmeErr FmeSession × FabState :=
  if e.attr_type ≠ e.pmu_type then (Except.error FmeErr.ENOENT, s)
  else if e.sample_period ≠ 0 ∨ e.attach_task = true then
    (Except.error FmeErr.EINVAL, s)
  else if e.cpu < 0 then (Except.error FmeErr.EINVAL, s)
  else
    let event_id := e.config % 2 ^ 12
    let event_type := e.config / 2 ^ 12 % 2 ^ 4
    let port_id := e.config / 2 ^ 16 % 2 ^ 8
    match get_event_attr event_id event_type port_id with
    | none => (Except.error FmeErr.EINVAL, s)
    | some ev_attr =>
      if (ev_attr.is_port_event = true ∧ port_id ≥ PERF_MAX_PORT_NUM) ∨
         (ev_attr.is_port_event = false ∧ port_id ≠ FME_PORTID_ROOT) then
        (Except.error FmeErr.EINVAL, s)
      else
        let sess : FmeSession := ⟨event_type, event_id, port_id, ev_attr.data⟩
        if event_type = FME_EVTYPE_FABRIC then
          match fabric_event_init s event_id port_id ev_attr.data with
          | (none, s1) => (Except.ok sess, s1)
          | (some err, s1) => (Except.error err, s1)
        else (Except.ok sess, s)

/-- Per-session counter accounting state of `struct hw_perf_event` as used
by this driver: `prev_count` (the spec's `previousSnapshot`) and the
event's accumulated `count`.  Both are 64-bit (`local64_t`) values. -/
structure FmeHwc where
  prev_count : Nat
  count : Nat
deriving DecidableEq, Repr

/-- Embedding of `fme_perf_event_update` from the C source: read the
driver counter (`now`, passed in as the value returned by the type's
`read_counter`), compute `delta = now - prev` with plain unsigned 64-bit
subtraction, and add the delta to the accumulated count.  The C function
does not write `prev_count`. -/
def fme_perf_event_update (now : Nat) (hwc : FmeHwc) : FmeHwc :=
  let prev := hwc.prev_count % 2 ^ 64
  let delta := (now % 2 ^ 64 + 2 ^ 64 - prev) % 2 ^ 64
  { hwc with count := (hwc.count + delta) % 2 ^ 64 }

/-- Embedding of `fme_perf_event_start` from the C source: read the
driver counter (`now`) and store it as `prev_count`; `count` untouched. -/
def fme_perf_event_start (now : Nat) (hwc : FmeHwc) : FmeHwc :=
  { hwc with prev_count := now % 2 ^ 64 }

/-- Embedding of `fme_perf_event_stop` from the C source: it just calls
`fme_perf_event_update`. -/
def fme_perf_event_stop (now : Nat) (hwc : FmeHwc) : FmeHwc :=
  fme_perf_event_update now hwc

/-- Embedding of `fme_perf_event_read` from the C source: it just calls
`fme_perf_event_update`. -/
def fme_perf_event_read (now : Nat) (hwc : FmeHwc) : FmeHwc :=
  fme_perf_event_update now hwc

/-- Embedding of the bounded busy-poll (`readq_poll_timeout_atomic`): scan
the sequence of successive counter-register reads for the first read,
within the `PERF_TIMEOUT` bound, whose event-tag sub-field (width `w` at
bit `lo`) equals the requested event code; `none` models the timeout. -/
def poll_match (reads : Nat → Nat) (lo w event : Nat) : Option Nat :=
  (List.range PERF_TIMEOUT).find? (fun i => fieldGet lo w (reads i) == event)

/-- Embedding of `cache_read_event_counter` from the C source: RMW the
`CACHE_CTRL` register to program the channel-select (bit 20, from the low
byte of `data`) and event-code (bits 19:16) sub-fields; busy-poll
`CACHE_CNTR0` until its `CACHE_CNTR_EVNT` tag (bits 63:60) echoes the
event code; on timeout return 0, otherwise re-read `CACHE_CNTR0` and read
`CACHE_CNTR1` and return the sum of their `CACHE_CNTR_EVNT_CNTR` (bits
47:0) sub-fields.  `cntr0Reads i` is the value of the i-th `readq` of
`CACHE_CNTR0` (the poll performs reads `0, 1, ...`; the re-read after a
match at index `i` is read `i + 1`); `cntr1` is the `CACHE_CNTR1` value.
Returns the counter value paired with the written `CACHE_CTRL` value. -/
def cache_read_event_counter (ctrl : Nat) (cntr0Reads : Nat → Nat)
    (cntr1 : Nat) (event data : Nat) : Nat × Nat :=
  let channel := data % 2 ^ 8
  let v := ctrl - fieldGet 20 1 ctrl * 2 ^ 20 - fieldGet 16 4 ctrl * 2 ^ 16
  let v := v + channel % 2 ^ 1 * 2 ^ 20 + event % 2 ^ 4 * 2 ^ 16
  match poll_match cntr0Reads 60 4 event with
  | none => (0, v)
  | some i =>
      (fieldGet 0 48 (cntr0Reads (i + 1)) + fieldGet 0 48 cntr1, v)

/-- States of the fabric arbiter reachable from an idle arbiter
(`fab_users = 0`, any working mode and register state) by sequences of
successful `fabric_event_init` calls and `fabric_event_destroy` calls,
together with the multiset (as a list) of port ids of the currently open
fabric sessions.  A destroy call corresponds to closing one currently
open session.  Open steps carry the bound that the number of concurrent
sessions stays below the capacity of the `u32` reference counter. -/
inductive FabReach : FabState → List Nat → Prop where
  | start : ∀ port ctrl w, FabReach ⟨0, port, ctrl, w⟩ []
  | doOpen : ∀ s sess event p data s', FabReach s sess →
      sess.length + 1 < 2 ^ 32 →
      fabric_event_init s event p data = (none, s') →
      FabReach s' (p :: sess)
  | doClose : ∀ s l1 p l2 event data, FabReach s (l1 ++ p :: l2) →
      FabReach (fabric_event_destroy s event p data) (l1 ++ l2)


/-! ## Helper lemmas -/

theorem classify_inj {a b : Nat} (h : classify a = classify b) : a = b := by
  unfold classify at h
  by_cases ha : a = FME_PORTID_ROOT
  · by_cases hb : b = FME_PORTID_ROOT
    · rw [ha, hb]
    · rw [if_pos ha, if_neg hb] at h
      exact absurd h (by simp)
  · by_cases hb : b = FME_PORTID_ROOT
    · rw [if_neg ha, if_pos hb] at h
      exact absurd h (by simp)
    · rw [if_neg ha, if_neg hb] at h
      injection h

theorem classify_ne_iff {a b : Nat} : classify a ≠ classify b ↔ a ≠ b := by
  constructor
  · intro h he
    exact h (by rw [he])
  · intro h hc
    exact h (classify_inj hc)

theorem fab_ctrl_rmw_fields (v port_id : Nat)
    (hp : port_id = FME_PORTID_ROOT ∨ port_id < PERF_MAX_PORT_NUM) :
    fieldGet 23 1 (fab_ctrl_rmw v port_id) =
      (if port_id = FME_PORTID_ROOT then 0 else 1)
    ∧ (port_id ≠ FME_PORTID_ROOT →
        fieldGet 20 2 (fab_ctrl_rmw v port_id) = port_id)
    ∧ fab_ctrl_rmw v port_id % 2 ^ 20 = v % 2 ^ 20
    ∧ fieldGet 22 1 (fab_ctrl_rmw v port_id) = fieldGet 22 1 v
    ∧ fab_ctrl_rmw v port_id / 2 ^ 24 = v / 2 ^ 24 := by
  rcases hp with hp | hp
  · subst hp
    unfold fab_ctrl_rmw fieldGet
    norm_num
    omega
  · have h0 : port_id = 0 := by
      have := hp
      unfold PERF_MAX_PORT_NUM at this
      omega
    subst h0
    unfold fab_ctrl_rmw fieldGet FME_PORTID_ROOT
    norm_num
    omega

/-! ## Claim theorems -/

/-- C1: for every fabric-arbiter state and requested port, the open fails
with the Busy classification (`EOPNOTSUPP`) iff the bank is in use
(`fab_users > 0`) in a different monitoring mode; on failure the state is
fully unchanged; on success `fab_users` grows by exactly one, the working
mode becomes the requested one, and the filter sub-fields of `FAB_CTRL`
are reprogrammed (filter disabled for aggregate, enabled with the port id
otherwise, all other bits preserved) iff the prior mode differed from the
requested classification. -/
theorem fabric_event_init_spec (s : FabState) (event port_id data : Nat)
    (hport : port_id = FME_PORTID_ROOT ∨ port_id < PERF_MAX_PORT_NUM)
    (husers : s.fab_users + 1 < 2 ^ 32) :
    ((fabric_event_init s event port_id data).1 = some FmeErr.EOPNOTSUPP ↔
      0 < s.fab_users ∧ classify s.fab_port_id ≠ classify port_id)
    ∧ ((fabric_event_init s event port_id data).1 = some FmeErr.EOPNOTSUPP →
        (fabric_event_init s event port_id data).2 = s)
    ∧ ((fabric_event_init s event port_id data).1 = none →
        (fabric_event_init s event port_id data).2.fab_users = s.fab_users + 1
        ∧ (fabric_event_init s event port_id data).2.fab_port_id = port_id
        ∧ (s.fab_port_id = port_id →
            (fabric_event_init s event port_id data).2.fab_ctrl = s.fab_ctrl
            ∧ (fabric_event_init s event port_id data).2.fab_ctrl_writes =
                s.fab_ctrl_writes)
        ∧ (s.fab_port_id ≠ port_id →
            (fabric_event_init s event port_id data).2.fab_ctrl_writes =
              s.fab_ctrl_writes + 1
            ∧ fieldGet 23 1 (fabric_event_init s event port_id data).2.fab_ctrl =
                (if port_id = FME_PORTID_ROOT then 0 else 1)
            ∧ (port_id ≠ FME_PORTID_ROOT →
                fieldGet 20 2 (fabric_event_init s event port_id data).2.fab_ctrl =
                  port_id)
            ∧ (fabric_event_init s event port_id data).2.fab_ctrl % 2 ^ 20 =
                s.fab_ctrl % 2 ^ 20
            ∧ fieldGet 22 1 (fabric_event_init s event port_id data).2.fab_ctrl =
                fieldGet 22 1 s.fab_ctrl
            ∧ (fabric_event_init s event port_id data).2.fab_ctrl / 2 ^ 24 =
                s.fab_ctrl / 2 ^ 24)) := by
  by_cases hbusy : 0 < s.fab_users ∧ s.fab_port_id ≠ port_id
  · have heq : fabric_event_init s event port_id data =
        (some FmeErr.EOPNOTSUPP, s) := by
      rw [fabric_event_init, if_pos hbusy]
    rw [heq]
    refine ⟨?_, fun _ => rfl, fun h => by simp at h⟩
    exact iff_of_true rfl ⟨hbusy.1, classify_ne_iff.mpr hbusy.2⟩
  · by_cases hm : s.fab_port_id = port_id
    · have heq : fabric_event_init s event port_id data =
          (none, { s with fab_users := (s.fab_users + 1) % 2 ^ 32 }) := by
        rw [fabric_event_init, if_neg hbusy]
        simp only [hm, if_pos]
      rw [heq]
      refine ⟨?_, fun h => by simp at h, ?_⟩
      · constructor
        · intro h
          simp at h
        · intro hc
          exact absurd (classify_ne_iff.mp hc.2) (by simp [hm])
      · intro _
        exact ⟨Nat.mod_eq_of_lt husers, hm, fun _ => ⟨rfl, rfl⟩,
               fun hne => absurd hm hne⟩
    · have heq : fabric_event_init s event port_id data =
          (none, { s with fab_users := (s.fab_users + 1) % 2 ^ 32,
                          fab_port_id := port_id,
                          fab_ctrl := fab_ctrl_rmw s.fab_ctrl port_id,
                          fab_ctrl_writes := s.fab_ctrl_writes + 1 }) := by
        rw [fabric_event_init, if_neg hbusy]
        simp only [hm, if_neg, if_false]
      rw [heq]
      refine ⟨?_, fun h => by simp at h, ?_⟩
      · constructor
        · intro h
          simp at h
        · intro hc
          exact absurd ⟨hc.1, classify_ne_iff.mp hc.2⟩ hbusy
      · intro _
        have hrmw := fab_ctrl_rmw_fields s.fab_ctrl port_id hport
        exact ⟨Nat.mod_eq_of_lt husers, rfl, fun he => absurd he hm,
               fun _ => ⟨rfl, hrmw.1, hrmw.2.1, hrmw.2.2.1, hrmw.2.2.2.1,
                         hrmw.2.2.2.2⟩⟩

/-- Witness for C1: a concrete successful open that switches the arbiter
from port-0 mode to aggregate mode. -/
theorem fabric_event_init_spec_witness :
    (fabric_event_init ⟨0, 0, 7, 0⟩ 1 255 0).2.fab_users = 0 + 1 ∧
    (fabric_event_init ⟨0, 0, 7, 0⟩ 1 255 0).2.fab_port_id = 255 := by
  have h := fabric_event_init_spec ⟨0, 0, 7, 0⟩ 1 255 0 (Or.inl rfl) (by norm_num)
  have hn : (fabric_event_init ⟨0, 0, 7, 0⟩ 1 255 0).1 = none := by decide
  obtain ⟨-, -, h3⟩ := h
  obtain ⟨hu, hp, -⟩ := h3 hn
  exact ⟨hu, hp⟩

/-- C8: closing a fabric session decrements `fab_users` by exactly one and
changes nothing else — the working mode and the control register (value
and write count) are untouched.  Stated for every arbiter state whose
`u32` user counter is in range and nonzero (a user exists to close). -/
theorem fabric_event_destroy_spec (s : FabState) (event port_id data : Nat)
    (h1 : 0 < s.fab_users) (h2 : s.fab_users < 2 ^ 32) :
    fabric_event_destroy s event port_id data =
      { s with fab_users := s.fab_users - 1 } := by
  rw [fabric_event_destroy, if_neg (by omega : ¬ s.fab_users = 0)]

/-- Witness for C8: closing the single user of an aggregate-mode arbiter. -/
theorem fabric_event_destroy_spec_witness :
    fabric_event_destroy ⟨1, 255, 7, 3⟩ 0 255 0 = ⟨0, 255, 7, 3⟩ := by
  have h := fabric_event_destroy_spec ⟨1, 255, 7, 3⟩ 0 255 0
    (by norm_num) (by norm_num)
  simpa using h

/-- C10: at device attach `fab_users` starts at zero, and the initial
working mode is read back from the hardware `FAB_CTRL` register: the
aggregate sentinel when the port filter bit reads as disabled, else the
port id in the filter's port-id sub-field; consequently the first open
whose classification matches the read-back mode succeeds without any
reprogramming (only the user count changes). -/
theorem fme_perf_attach_spec (ctrl event p data : Nat) :
    (fme_perf_attach ctrl).fab_users = 0
    ∧ (fieldGet 23 1 ctrl = 0 →
        (fme_perf_attach ctrl).fab_port_id = FME_PORTID_ROOT)
    ∧ (fieldGet 23 1 ctrl ≠ 0 →
        (fme_perf_attach ctrl).fab_port_id = fieldGet 20 2 ctrl)
    ∧ (classify p = classify (fme_perf_attach ctrl).fab_port_id →
        fabric_event_init (fme_perf_attach ctrl) event p data =
          (none, { fme_perf_attach ctrl with fab_users := 1 })) := by
  refine ⟨rfl, ?_, ?_, ?_⟩
  · intro h
    simp [fme_perf_attach, fme_perf_setup_hardware, h]
  · intro h
    simp [fme_perf_attach, fme_perf_setup_hardware, h]
  · intro h
    have hp : (fme_perf_attach ctrl).fab_port_id = p := (classify_inj h).symm
    have hnb : ¬(0 < (fme_perf_attach ctrl).fab_users ∧
        (fme_perf_attach ctrl).fab_port_id ≠ p) := by
      intro hc
      have h0 : (fme_perf_attach ctrl).fab_users = 0 := rfl
      rw [h0] at hc
      exact Nat.lt_irrefl 0 hc.1
    rw [fabric_event_init, if_neg hnb]
    simp only [hp, if_pos]
    rfl

/-- Witness for C10: attach with an all-zero control register reads back
aggregate mode, and an aggregate open then succeeds with no reprogram. -/
theorem fme_perf_attach_spec_witness :
    fabric_event_init (fme_perf_attach 0) 0 255 0 =
      (none, { fme_perf_attach 0 with fab_users := 1 }) ∧
    (fme_perf_attach 0).fab_users = 0 :=
  ⟨(fme_perf_attach_spec 0 0 255 0).2.2.2 (by decide),
   (fme_perf_attach_spec 0 0 255 0).1⟩

theorem fabReach_invariant {s : FabState} {sess : List Nat}
    (h : FabReach s sess) :
    s.fab_users = sess.length ∧ sess.length < 2 ^ 32 ∧
      ∀ q ∈ sess, q = s.fab_port_id := by
  induction h with
  | start port ctrl w =>
    refine ⟨rfl, by norm_num, ?_⟩
    intro q hq
    cases hq
  | doOpen s sess event p data s' hreach hlen hinit ih =>
    obtain ⟨hu, hlt, hall⟩ := ih
    by_cases hbusy : 0 < s.fab_users ∧ s.fab_port_id ≠ p
    · rw [fabric_event_init, if_pos hbusy] at hinit
      exact absurd (congrArg Prod.fst hinit) (by simp)
    · by_cases hm : s.fab_port_id = p
      · rw [fabric_event_init, if_neg hbusy] at hinit
        simp only [hm, if_pos] at hinit
        injection hinit with h1 h2
        subst h2
        refine ⟨?_, ?_, ?_⟩
        · show (s.fab_users + 1) % 2 ^ 32 = (p :: sess).length
          rw [List.length_cons]
          omega
        · rw [List.length_cons]
          omega
        · intro q hq
          show q = p
          rcases List.mem_cons.mp hq with hq | hq
          · exact hq
          · rw [hall q hq, hm]
      · rw [fabric_event_init, if_neg hbusy] at hinit
        simp only [hm, if_neg, if_false] at hinit
        injection hinit with h1 h2
        subst h2
        have hz : s.fab_users = 0 := by
          rcases Decidable.not_and_iff_or_not.mp hbusy with h0 | h0
          · omega
          · exact absurd (Decidable.not_not.mp h0) hm
        have hsess : sess = [] := List.length_eq_zero.mp (by omega)
        subst hsess
        refine ⟨?_, by norm_num, ?_⟩
        · show (s.fab_users + 1) % 2 ^ 32 = ([p] : List Nat).length
          rw [hz]
          norm_num
        · intro q hq
          show q = p
          rcases List.mem_cons.mp hq with hq | hq
          · exact hq
          · cases hq
  | doClose s l1 p l2 event data hreach ih =>
    obtain ⟨hu, hlt, hall⟩ := ih
    rw [List.length_append, List.length_cons] at hu hlt
    refine ⟨?_, ?_, ?_⟩
    · show (if s.fab_users = 0 then 2 ^ 32 - 1 else s.fab_users - 1) =
        (l1 ++ l2).length
      rw [if_neg (by omega : ¬ s.fab_users = 0), List.length_append]
      omega
    · rw [List.length_append]
      omega
    · intro q hq
      have hq2 : q ∈ l1 ++ p :: l2 := by
        rcases List.mem_append.mp hq with h | h
        · exact List.mem_append.mpr (Or.inl h)
        · exact List.mem_append.mpr (Or.inr (List.mem_cons_of_mem p h))
      simp only [fabric_event_destroy]
      exact hall q hq2

/-- C4: in every arbiter state reachable by successful opens and closes
from an idle arbiter, if there are active users then every currently open
fabric session requested a port of the same classification, the current
working mode is that classification, and the user count equals the number
of open sessions. -/
theorem fabric_arbiter_invariant (s : FabState) (sess : List Nat)
    (h : FabReach s sess) (hpos : 0 < s.fab_users) :
    (∀ q ∈ sess, classify q = classify s.fab_port_id) ∧
      s.fab_users = sess.length := by
  obtain ⟨hu, hlt, hall⟩ := fabReach_invariant h
  exact ⟨fun q hq => by rw [hall q hq], hu⟩

/-- Witness for C4: the arbiter state after one successful aggregate open. -/
theorem fabric_arbiter_invariant_witness :
    (∀ q ∈ [FME_PORTID_ROOT],
        classify q = classify (⟨1, 255, 0, 0⟩ : FabState).fab_port_id) ∧
      (⟨1, 255, 0, 0⟩ : FabState).fab_users = [FME_PORTID_ROOT].length := by
  have h0 : FabReach ⟨0, 255, 0, 0⟩ [] := FabReach.start 255 0 0
  have h1 : FabReach ⟨1, 255, 0, 0⟩ [FME_PORTID_ROOT] :=
    FabReach.doOpen ⟨0, 255, 0, 0⟩ [] 0 FME_PORTID_ROOT 0 ⟨1, 255, 0, 0⟩ h0
      (by norm_num) (by decide)
  exact fabric_arbiter_invariant ⟨1, 255, 0, 0⟩ [FME_PORTID_ROOT] h1
    (by norm_num)

/-- C2 counterexample: with `previousSnapshot = 1`, `accumulated = 0` and
a driver read returning 0 (a wraparound from 1 to 0), the delta the code
adds is `2^64 - 1`, not `(0 - 1) mod 2^48 = 2^48 - 1` (cache/IOMMU field
width) and not `(0 - 1) mod 2^60 = 2^60 - 1` (fabric field width): the
subtraction in `fme_perf_event_update` is full 64-bit, never re-masked to
the hardware counter's field width. -/
theorem fme_perf_event_update_width_counterexample :
    (fme_perf_event_update 0 { prev_count := 1, count := 0 }).count ≠
        (0 + (0 + 2 ^ 48 - 1) % 2 ^ 48) % 2 ^ 64
    ∧ (fme_perf_event_update 0 { prev_count := 1, count := 0 }).count ≠
        (0 + (0 + 2 ^ 60 - 1) % 2 ^ 60) % 2 ^ 64
    ∧ (fme_perf_event_update 0 { prev_count := 1, count := 0 }).count =
        2 ^ 64 - 1 := by
  refine ⟨by decide, by decide, by decide⟩

/-- C2 as amended: the delta added by `read()` / `stop()` is the modular
difference over the full 64-bit register width, `(now - prev) mod 2^64`
(the driver read masks values to the hardware field width, but the
subtraction itself is 64-bit): accumulated-plus-snapshot is preserved
modulo `2^64`, and the new count is exactly the old count plus the 64-bit
modular difference. -/
theorem fme_perf_event_update_mod64 (hwc : FmeHwc) (now : Nat)
    (hprev : hwc.prev_count < 2 ^ 64) (hcount : hwc.count < 2 ^ 64)
    (hnow : now < 2 ^ 64) :
    ((fme_perf_event_update now hwc).count + hwc.prev_count) % 2 ^ 64 =
      (hwc.count + now) % 2 ^ 64
    ∧ (fme_perf_event_update now hwc).count =
      (hwc.count + (now + 2 ^ 64 - hwc.prev_count) % 2 ^ 64) % 2 ^ 64 := by
  simp only [fme_perf_event_update]
  constructor <;> omega

/-- Witness for the amended C2 at the wraparound input of the
counterexample. -/
theorem fme_perf_event_update_mod64_witness :
    ((fme_perf_event_update 0 { prev_count := 1, count := 0 }).count + 1) %
        2 ^ 64 = (0 + 0) % 2 ^ 64 :=
  (fme_perf_event_update_mod64 { prev_count := 1, count := 0 } 0
    (by norm_num) (by norm_num) (by norm_num)).1

/-- C3 counterexample: a `read()` (and a `stop()`) on a session with
`previousSnapshot = 5` and a driver read returning 9 leaves
`previousSnapshot` at 5 — the C update path never stores `now` back into
`prev_count`. -/
theorem fme_perf_event_update_prev_counterexample :
    (fme_perf_event_read 9 { prev_count := 5, count := 0 }).prev_count ≠ 9
    ∧ (fme_perf_event_stop 9 { prev_count := 5, count := 0 }).prev_count ≠ 9
    ∧ (fme_perf_event_read 9 { prev_count := 5, count := 0 }).prev_count =
        5 := by
  refine ⟨by decide, by decide, by decide⟩

/-- C3 as amended: `read()` and `stop()` (both of which run
`fme_perf_event_update`) add the 64-bit modular delta to the accumulated
count but leave `previousSnapshot` unchanged; only `start()` writes
`previousSnapshot`. -/
theorem fme_perf_event_update_prev_unchanged (now : Nat) (hwc : FmeHwc) :
    (fme_perf_event_read now hwc).prev_count = hwc.prev_count
    ∧ (fme_perf_event_stop now hwc).prev_count = hwc.prev_count
    ∧ fme_perf_event_stop now hwc = fme_perf_event_update now hwc
    ∧ fme_perf_event_read now hwc = fme_perf_event_update now hwc
    ∧ (fme_perf_event_start now hwc).prev_count = now % 2 ^ 64
    ∧ (fme_perf_event_read now hwc).count =
        (hwc.count +
          (now % 2 ^ 64 + 2 ^ 64 - hwc.prev_count % 2 ^ 64) % 2 ^ 64) %
          2 ^ 64 :=
  ⟨rfl, rfl, rfl, rfl, rfl, rfl⟩

/-- C5: resolving any catalog descriptor's id and type with a port valid
for its scope (the aggregate sentinel for global descriptors, a port below
`PERF_MAX_PORT_NUM` for per-port descriptors) returns exactly that
descriptor, and within each type group no two descriptors agree on both
event id and scope (so the linear scan's answer is unique). -/
theorem get_event_attr_roundtrip :
    (∀ t, t ≤ FME_EVTYPE_MAX →
      ∀ d ∈ fme_perf_event_groups.getD t [], ∀ p : Nat,
        (d.is_port_event = true ∧ p < PERF_MAX_PORT_NUM) ∨
          (d.is_port_event = false ∧ p = FME_PORTID_ROOT) →
        get_event_attr d.event_id t p = some d)
    ∧ (∀ t, t ≤ FME_EVTYPE_MAX →
      ∀ d1 ∈ fme_perf_event_groups.getD t [],
        ∀ d2 ∈ fme_perf_event_groups.getD t [],
          d1.event_id = d2.event_id → d1.is_port_event = d2.is_port_event →
            d1 = d2) := by
  constructor
  · intro t ht d hd p hp
    have ht4 : t ≤ 4 := ht
    rcases hp with ⟨hb, hplt⟩ | ⟨hb, hpe⟩
    · have hp0 : p = 0 := by
        have h1 : PERF_MAX_PORT_NUM = 1 := rfl
        omega
      subst hp0
      revert d
      interval_cases t
      all_goals decide
    · subst hpe
      revert d
      interval_cases t
      all_goals decide
  · intro t ht
    have ht4 : t ≤ 4 := ht
    interval_cases t
    all_goals decide

/-- Witness for C5: resolving the cache data-write-port-contention
descriptor (id 0x6, global scope) with the aggregate sentinel port. -/
theorem get_event_attr_roundtrip_witness :
    get_event_attr 0x6 FME_EVTYPE_CACHE 255 =
      some ⟨0x6, FME_EVTYPE_CACHE, false, 1⟩ :=
  get_event_attr_roundtrip.1 FME_EVTYPE_CACHE (by decide)
    ⟨0x6, FME_EVTYPE_CACHE, false, 1⟩ (by decide) 255
    (Or.inr ⟨rfl, rfl⟩)

/-- C9: an open request for this PMU that asks for sampling-based
collection, or is task-attached, or lacks an explicit target CPU, fails
with `EINVAL` and the arbiter/hardware state is returned untouched (the
checks precede every hardware access and all session setup). -/
theorem fme_perf_event_init_rejects_modes (e : PerfEventConf) (s : FabState)
    (hty : e.attr_type = e.pmu_type)
    (hbad : e.sample_period ≠ 0 ∨ e.attach_task = true ∨ e.cpu < 0) :
    fme_perf_event_init e s = (Except.error FmeErr.EINVAL, s) := by
  have h1 : ¬ e.attr_type ≠ e.pmu_type := by simpa using hty
  rcases hbad with hs | ht | hc
  · rw [fme_perf_event_init, if_neg h1, if_pos (Or.inl hs)]
  · rw [fme_perf_event_init, if_neg h1, if_pos (Or.inr ht)]
  · by_cases h2 : e.sample_period ≠ 0 ∨ e.attach_task = true
    · rw [fme_perf_event_init, if_neg h1, if_pos h2]
    · rw [fme_perf_event_init, if_neg h1, if_neg h2, if_pos hc]

/-- Witness for C9: a sampling request (nonzero sample period) on CPU 0. -/
theorem fme_perf_event_init_rejects_modes_witness :
    fme_perf_event_init ⟨0, 0, 1, false, 0, 0⟩ ⟨0, 255, 0, 0⟩ =
      (Except.error FmeErr.EINVAL, ⟨0, 255, 0, 0⟩) :=
  fme_perf_event_init_rejects_modes ⟨0, 0, 1, false, 0, 0⟩ ⟨0, 255, 0, 0⟩
    rfl (Or.inl (by decide))

/-- C6: an open request for this PMU whose configuration resolves to a
catalog descriptor but whose port id is invalid for the descriptor's
scope — a per-port descriptor with port at or above `PERF_MAX_PORT_NUM`,
or a global descriptor with port other than the aggregate sentinel —
fails with `EINVAL` and the arbiter/hardware state is returned untouched
(no session is created). -/
theorem fme_perf_event_init_rejects_bad_port (e : PerfEventConf)
    (s : FabState) (d : FmePerfEventAttr)
    (hty : e.attr_type = e.pmu_type)
    (hres : get_event_attr (e.config % 2 ^ 12) (e.config / 2 ^ 12 % 2 ^ 4)
        (e.config / 2 ^ 16 % 2 ^ 8) = some d)
    (hbad : (d.is_port_event = true ∧
              e.config / 2 ^ 16 % 2 ^ 8 ≥ PERF_MAX_PORT_NUM) ∨
            (d.is_port_event = false ∧
              e.config / 2 ^ 16 % 2 ^ 8 ≠ FME_PORTID_ROOT)) :
    fme_perf_event_init e s = (Except.error FmeErr.EINVAL, s) := by
  have h1 : ¬ e.attr_type ≠ e.pmu_type := by simpa using hty
  by_cases h2 : e.sample_period ≠ 0 ∨ e.attach_task = true
  · rw [fme_perf_event_init, if_neg h1, if_pos h2]
  · by_cases h3 : e.cpu < 0
    · rw [fme_perf_event_init, if_neg h1, if_neg h2, if_pos h3]
    · rw [fme_perf_event_init, if_neg h1, if_neg h2, if_neg h3]
      simp only [hres]
      rw [if_pos hbad]

/-- Witness for C6: a fabric per-port event (id 0, type 2) requested with
port 1, which is at the maximum port count. -/
theorem fme_perf_event_init_rejects_bad_port_witness :
    fme_perf_event_init ⟨0, 0, 0, false, 0, 0x12000⟩ ⟨0, 255, 0, 0⟩ =
      (Except.error FmeErr.EINVAL, ⟨0, 255, 0, 0⟩) :=
  fme_perf_event_init_rejects_bad_port ⟨0, 0, 0, false, 0, 0x12000⟩
    ⟨0, 255, 0, 0⟩ ⟨0, FME_EVTYPE_FABRIC, true, 0⟩ rfl (by decide)
    (Or.inl ⟨rfl, by decide⟩)

/-- C7: for a cache counter read, if some poll of `CACHE_CNTR0` within the
timeout bound carries the requested event code in its tag sub-field, the
read returns the sum of the two cache bank counter registers' low 48-bit
value sub-fields; if every poll within the bound mismatches, the read
returns 0 instead of failing. -/
theorem cache_read_event_counter_spec (cntr0Reads : Nat → Nat)
    (cntr1 ctrl event data : Nat) :
    ((∀ i, i < PERF_TIMEOUT → fieldGet 60 4 (cntr0Reads i) ≠ event) →
      (cache_read_event_counter ctrl cntr0Reads cntr1 event data).1 = 0)
    ∧ ((∃ i, i < PERF_TIMEOUT ∧ fieldGet 60 4 (cntr0Reads i) = event) →
      ∃ j, j < PERF_TIMEOUT ∧ fieldGet 60 4 (cntr0Reads j) = event ∧
        (cache_read_event_counter ctrl cntr0Reads cntr1 event data).1 =
          fieldGet 0 48 (cntr0Reads (j + 1)) + fieldGet 0 48 cntr1) := by
  constructor
  · intro hnone
    have hfind : poll_match cntr0Reads 60 4 event = none := by
      unfold poll_match
      rw [List.find?_eq_none]
      intro i hi
      have hi2 : i < PERF_TIMEOUT := List.mem_range.mp hi
      simpa using hnone i hi2
    rw [cache_read_event_counter, hfind]
  · rintro ⟨i, hi, heq⟩
    obtain ⟨j, hj⟩ : ∃ j, poll_match cntr0Reads 60 4 event = some j := by
      cases hfind : poll_match cntr0Reads 60 4 event with
      | some j => exact ⟨j, rfl⟩
      | none =>
        exfalso
        unfold poll_match at hfind
        rw [List.find?_eq_none] at hfind
        have hcon := hfind i (List.mem_range.mpr hi)
        simp [heq] at hcon
    have hj2 : (List.range PERF_TIMEOUT).find?
        (fun i => fieldGet 60 4 (cntr0Reads i) == event) = some j := hj
    have hjmem : j ∈ List.range PERF_TIMEOUT := List.mem_of_find?_eq_some hj2
    have hjp := List.find?_some hj2
    refine ⟨j, List.mem_range.mp hjmem, by simpa using hjp, ?_⟩
    rw [cache_read_event_counter, hj]

/-- Witness for C7: a timed-out poll (all tags zero, event 3) returning 0,
and an immediately matching poll (tag 3, low field 7) returning `7 + 5`. -/
theorem cache_read_event_counter_spec_witness :
    (cache_read_event_counter 0 (fun _ => 0) 5 3 0).1 = 0
    ∧ ∃ j, j < PERF_TIMEOUT ∧
        fieldGet 60 4 ((fun _ => 3 * 2 ^ 60 + 7) j) = 3 ∧
        (cache_read_event_counter 0 (fun _ => 3 * 2 ^ 60 + 7) 5 3 0).1 =
          fieldGet 0 48 ((fun _ => 3 * 2 ^ 60 + 7) (j + 1)) +
            fieldGet 0 48 5 :=
  ⟨(cache_read_event_counter_spec (fun _ => 0) 5 0 3 0).1
      (fun i _ => (by decide : fieldGet 60 4 0 ≠ 3)),
   (cache_read_event_counter_spec (fun _ => 3 * 2 ^ 60 + 7) 5 0 3 0).2
      ⟨0, by decide, by decide⟩⟩
